import Mathlib

/-!
Verification development for the pynavio packaging helpers.

The Python sources embedded here are `pynavio/_mlflow.py` and
`pynavio/utils/common.py`.  Python dictionaries are modelled as
association lists with string keys, JSON values as the inductive `JVal`,
and the filesystem as an association list from paths to the JSON value
last written at that path.  Python exceptions are modelled by the
inductive `PyErr`; a function that can raise returns `Except PyErr`.
-/

/-- A JSON value, as passed around by the Python code.  Numbers are
modelled as rationals (ints and floats are both JSON numbers). -/
inductive JVal where
  | jnull : JVal
  | jbool : Bool → JVal
  | jnum : ℚ → JVal
  | jstr : String → JVal
  | jarr : List JVal → JVal
  | jobj : List (String × JVal) → JVal

/-- Python dict lookup `d.get(k)` on an association list (first binding
wins; real dicts have unique keys). -/
def alookup {β : Type} : List (String × β) → String → Option β
  | [], _ => none
  | (k, v) :: rest, key => if k = key then some v else alookup rest key

/-- Python dict update `d[k] = v`: replace the binding in place or
append it. -/
def dictSet {β : Type} : List (String × β) → String → β → List (String × β)
  | [], key, v => [(key, v)]
  | (k, w) :: rest, key, v =>
      if k = key then (key, v) :: rest else (k, w) :: dictSet rest key v

/-- Python truthiness of a JSON value (`if x:`): None, False, zero and
empty containers are falsy. -/
def jTruthy : JVal → Bool
  | .jnull => false
  | .jbool b => b
  | .jnum q => q ≠ 0
  | .jstr s => s ≠ ""
  | .jarr xs => !xs.isEmpty
  | .jobj fs => !fs.isEmpty

/-- JSON type test used by the prediction schema: number. -/
def isJNum : JVal → Bool
  | .jnum _ => true
  | _ => false

/-- JSON type test used by the prediction schema: string. -/
def isJStr : JVal → Bool
  | .jstr _ => true
  | _ => false

/-- JSON type test used by the prediction schema: boolean. -/
def isJBool : JVal → Bool
  | .jbool _ => true
  | _ => false

/-- Python set equality `set(a) == set(b)` on key lists. -/
def keySetEq (a b : List String) : Bool :=
  a.all (fun k => b.contains k) && b.all (fun k => a.contains k)

/-- ERROR_KEYS from `_mlflow.py` line 27. -/
def errorKeysList : List String := ["error_code", "message", "stack_trace"]

/-- Python exceptions relevant to the embedded code. -/
inductive PyErr where
  /-- jsonschema.exceptions.ValidationError -/
  | validationError : PyErr
  /-- AssertionError, raised by a failed `assert` -/
  | assertionError : PyErr
  /-- TypeError -/
  | typeError : PyErr
  /-- AttributeError -/
  | attributeError : PyErr
  /-- KeyError -/
  | keyError : PyErr
  /-- FileNotFoundError / OSError from touching a missing file -/
  | fileError : PyErr
  deriving DecidableEq, Repr

/-- Modelled from the spec: the constant `PREDICTION_SCHEMA` lives in
`pynavio/utils/schemas.py`, which is not among the sources; the spec
describes the prediction value as schema-constrained to flat arrays of
one scalar type (number, string, boolean), and the repository tests
(`test_prediction_schema_check_negative` / `_positive` in
`tests/test_pynavio/test_mlflow.py`) pin the remaining cases: bare
scalars, empty arrays, nested arrays, objects and mixed-type arrays are
all rejected.  This predicate decides whether the prediction value
satisfies that schema. -/
def predictionValid : JVal → Bool
  | .jarr xs =>
      !xs.isEmpty && (xs.all isJNum || xs.all isJStr || xs.all isJBool)
  | _ => false

/-- Modelled from the spec: `jsonschema.validate(model_prediction,
PREDICTION_SCHEMA)` validates the whole model output object; it requires
a `prediction` property whose value satisfies `predictionValid`.  Other
properties are unconstrained (the positive repository tests include
extra keys). -/
def predictionSchemaOk : JVal → Bool
  | .jobj fs =>
      match alookup fs "prediction" with
      | some v => predictionValid v
      | none => false
  | _ => false

/-- ModelValidator.verify_model_output (`_mlflow.py` lines 382-431).
Asserts the output is a Mapping; if the `prediction` key is present the
output is validated against PREDICTION_SCHEMA (ValidationError on
failure); otherwise the key set must equal ERROR_KEYS (AssertionError on
failure). -/
def verify_model_output : JVal → Except PyErr Unit
  | .jobj fs =>
      if (alookup fs "prediction").isSome then
        if predictionSchemaOk (.jobj fs) then .ok ()
        else .error .validationError
      else if keySetEq (fs.map Prod.fst) errorKeysList then .ok ()
      else .error .assertionError
  | _ => .error .assertionError

/-- The key-set condition that claim C1 states: the output is a mapping
whose keys either contain `prediction` or are exactly the error keys. -/
def goodKeySet : JVal → Bool
  | .jobj fs =>
      (alookup fs "prediction").isSome || keySetEq (fs.map Prod.fst) errorKeysList
  | _ => false

/-- C1: verify_model_output passes only if the output is a mapping whose
key set either contains prediction (other keys allowed) or is exactly
the error-key set; any other key-set combination raises. -/
theorem c1_verify_model_output_key_sets (out : JVal) :
    (verify_model_output out = .ok () → goodKeySet out = true) ∧
    (goodKeySet out = false → ∃ e, verify_model_output out = .error e) := by
  constructor
  · intro h
    cases out with
    | jobj fs =>
        simp only [verify_model_output, goodKeySet] at *
        by_cases h1 : (alookup fs "prediction").isSome
        · simp [h1]
        · simp only [h1, if_false, Bool.false_or]
          by_cases h2 : keySetEq (fs.map Prod.fst) errorKeysList
          · simp [h2]
          · simp [h1, h2] at h
    | jnull => simp [verify_model_output] at h
    | jbool b => simp [verify_model_output] at h
    | jnum q => simp [verify_model_output] at h
    | jstr s => simp [verify_model_output] at h
    | jarr xs => simp [verify_model_output] at h
  · intro h
    cases out with
    | jobj fs =>
        simp only [goodKeySet, Bool.or_eq_false_iff] at h
        refine ⟨.assertionError, ?_⟩
        simp [verify_model_output, h.1, h.2]
    | jnull => exact ⟨.assertionError, rfl⟩
    | jbool b => exact ⟨.assertionError, rfl⟩
    | jnum q => exact ⟨.assertionError, rfl⟩
    | jstr s => exact ⟨.assertionError, rfl⟩
    | jarr xs => exact ⟨.assertionError, rfl⟩

/-- C1 witness: an output with an unrelated key raises. -/
theorem c1_verify_model_output_key_sets_witness :
    ∃ e, verify_model_output (.jobj [("foo", .jnull)]) = .error e :=
  (c1_verify_model_output_key_sets (.jobj [("foo", .jnull)])).2 (by rfl)

/-- C2 counterexample: the claim says a bare scalar prediction value
passes, but the code (pinned by the repository test
`test_prediction_schema_check_negative`, case `prediction: 5`) raises a
ValidationError on it. -/
theorem c2_counterexample_bare_scalar :
    verify_model_output (.jobj [("prediction", .jnum 5)]) =
      .error .validationError := by rfl

/-- C2 (amended): for every model output with a `prediction` key,
verify_model_output passes when the value is a nonempty flat array of a
single scalar type (number, string, boolean), and raises a
ValidationError otherwise — in particular on bare scalars, empty arrays,
mixed-type arrays, nested arrays and arrays containing objects. -/
theorem c2_verify_model_output_prediction (fs : List (String × JVal))
    (v : JVal) (h : alookup fs "prediction" = some v) :
    (predictionValid v = true → verify_model_output (.jobj fs) = .ok ()) ∧
    (predictionValid v = false →
      verify_model_output (.jobj fs) = .error .validationError) := by
  have hsome : (alookup fs "prediction").isSome = true := by
    simp [h]
  constructor
  · intro hv
    simp [verify_model_output, hsome, predictionSchemaOk, h, hv]
  · intro hv
    simp [verify_model_output, hsome, predictionSchemaOk, h, hv]

/-- C2 witness: a homogeneous numeric array passes and a mixed array
raises, both via the amended theorem. -/
theorem c2_verify_model_output_prediction_witness :
    verify_model_output (.jobj [("prediction", .jarr [.jnum 5])]) = .ok () ∧
    verify_model_output
        (.jobj [("prediction", .jarr [.jnum (85/10), .jbool true])]) =
      .error .validationError :=
  ⟨(c2_verify_model_output_prediction [("prediction", .jarr [.jnum 5])]
      (.jarr [.jnum 5]) rfl).1 (by rfl),
   (c2_verify_model_output_prediction
      [("prediction", .jarr [.jnum (85/10), .jbool true])]
      (.jarr [.jnum (85/10), .jbool true]) rfl).2 (by rfl)⟩

/-- The filesystem, as the Python code observes it: an association list
from paths to the JSON value stored at that path. -/
abbrev FS := List (String × JVal)

/-- An artifacts dictionary: artifact name to filesystem path. -/
abbrev Artifacts := List (String × String)

/-- The else-branch of register_example_request (`_mlflow.py` lines
104-110): `example_request` is absent or falsy, so the artifacts must
already contain an existing `example_request` path.  Passing
`artifacts=None` here makes Python evaluate `EXAMPLE_REQUEST in None`,
a TypeError. -/
def registerCheckArtifacts (fs : FS) (artifacts : Option Artifacts) :
    Except PyErr (Artifacts × FS) :=
  match artifacts with
  | none => .error .typeError
  | some arts =>
      match alookup arts "example_request" with
      | none => .error .assertionError
      | some p =>
          if (alookup fs p).isSome then .ok (arts, fs)
          else .error .assertionError

/-- register_example_request (`_mlflow.py` lines 82-112).  Asserts that
at least one of `example_request` and `artifacts` is not None; if
`example_request` is truthy, merges `example_request:
tmp_dir/example_request.json` under the artifacts (an existing
`example_request` entry in `artifacts` wins, per the Python dict merge
order) and writes the serialized request to the resulting path;
otherwise requires an existing `example_request` artifact file. -/
def register_example_request (fs : FS) (tmp_dir : String)
    (example_request : Option JVal) (artifacts : Option Artifacts) :
    Except PyErr (Artifacts × FS) :=
  if example_request.isNone && artifacts.isNone then .error .assertionError
  else
    match example_request with
    | some er =>
        if jTruthy er then
          let arts0 := artifacts.getD []
          let arts :=
            if (alookup arts0 "example_request").isSome then arts0
            else ("example_request", tmp_dir ++ "/example_request.json") :: arts0
          match alookup arts "example_request" with
          | some target => .ok (arts, dictSet fs target er)
          | none => .error .keyError
        else registerCheckArtifacts fs artifacts
    | none => registerCheckArtifacts fs artifacts

/-- Reading back what dictSet wrote. -/
theorem alookup_dictSet_eq {β : Type} (l : List (String × β)) (k : String)
    (v : β) : alookup (dictSet l k v) k = some v := by
  induction l with
  | nil => simp [dictSet, alookup]
  | cons hd tl ih =>
      obtain ⟨k', w⟩ := hd
      by_cases hk : k' = k
      · simp [dictSet, hk, alookup]
      · simp [dictSet, hk, alookup, ih]

/-- C3 counterexample: the claim requires that supplying both an inline
example request and an artifact map fails with a precondition error, but
the code accepts both at once and succeeds. -/
theorem c3_counterexample_both_supplied :
    register_example_request [] "tmp" (some (.jobj [("x", .jnum 1)]))
        (some [("model_path", "a_path")]) =
      .ok ([("example_request", "tmp/example_request.json"),
            ("model_path", "a_path")],
           [("tmp/example_request.json", .jobj [("x", .jnum 1)])]) := by rfl

/-- C3 (amended): supplying neither an inline example request nor an
artifact map fails with a precondition error (at least one must be
supplied; supplying both is accepted, the inline request being written
to disk); supplying, with no truthy inline request, an artifact map
whose example_request entry names a file that does not exist fails; and
supplying a truthy inline example request returns an artifact map whose
example_request entry is a path at which the serialized request can be
read back. -/
theorem c3_register_example_request (fs : FS) (tmp_dir : String)
    (example_request : Option JVal) (artifacts : Option Artifacts) :
    (example_request = none → artifacts = none →
      register_example_request fs tmp_dir example_request artifacts =
        .error .assertionError) ∧
    (∀ arts p, example_request = none → artifacts = some arts →
      alookup arts "example_request" = some p → alookup fs p = none →
      register_example_request fs tmp_dir example_request artifacts =
        .error .assertionError) ∧
    (∀ er, example_request = some er → jTruthy er = true →
      ∃ arts' fs' p,
        register_example_request fs tmp_dir example_request artifacts =
          .ok (arts', fs') ∧
        alookup arts' "example_request" = some p ∧
        alookup fs' p = some er) := by
  refine ⟨?_, ?_, ?_⟩
  · intro h1 h2
    simp [register_example_request, h1, h2]
  · intro arts p h1 h2 hp hmiss
    simp [register_example_request, h1, h2, registerCheckArtifacts, hp, hmiss]
  · intro er her htruthy
    subst her
    simp only [register_example_request, Option.isNone_some, Bool.false_and,
      Bool.false_eq_true, if_false, htruthy, if_true]
    by_cases hkey : (alookup (artifacts.getD []) "example_request").isSome
    · obtain ⟨p, hp⟩ := Option.isSome_iff_exists.mp hkey
      refine ⟨artifacts.getD [], dictSet fs p er, p, ?_, hp, ?_⟩
      · simp [hkey, hp]
      · exact alookup_dictSet_eq fs p er
    · refine ⟨("example_request", tmp_dir ++ "/example_request.json")
          :: artifacts.getD [],
        dictSet fs (tmp_dir ++ "/example_request.json") er,
        tmp_dir ++ "/example_request.json", ?_, ?_, ?_⟩
      · simp only [hkey, if_false]
        simp [alookup]
      · simp [alookup]
      · exact alookup_dictSet_eq fs (tmp_dir ++ "/example_request.json") er

/-- C3 witness: a valid inline request with no artifacts yields an
artifact map whose example_request path holds the serialized request. -/
theorem c3_register_example_request_witness :
    ∃ arts' fs' p,
      register_example_request [] "tmp" (some (.jobj [("x", .jnum 1)]))
          none = .ok (arts', fs') ∧
      alookup arts' "example_request" = some p ∧
      alookup fs' p = some (.jobj [("x", .jnum 1)]) :=
  (c3_register_example_request [] "tmp" (some (.jobj [("x", .jnum 1)]))
      none).2.2 (.jobj [("x", .jnum 1)]) rfl (by rfl)

/-- Outcome of one validation stage: the exception it raises (if any)
and the console messages it prints.  The five stages run by
`ModelValidator._run` (validate_metadata, run_model_io,
_check_if_prediction_call_is_used, verify_model_output, check_zip_size)
each have this shape; their internals involve mlflow and the external
schema files, so `_run` is embedded over the stage outcomes. -/
abbrev StageResult := Except PyErr Unit × List String

/-- ModelValidator._run (`_mlflow.py` lines 433-438): the stages run in
sequence; an exception in one stage propagates immediately, so later
stages never run and never print. -/
def runStages : List StageResult → StageResult
  | [] => (.ok (), [])
  | s :: rest =>
      match s with
      | (.ok (), ms) =>
          let r := runStages rest
          (r.1, ms ++ r.2)
      | (.error e, ms) => (.error e, ms)

/-- The except clause of ModelValidator.__call__ catches exactly
jsonschema ValidationError and AssertionError. -/
def isCaughtByValidator : PyErr → Bool
  | .validationError => true
  | .assertionError => true
  | _ => false

/-- Failure summary printed by ModelValidator.__call__ before
re-raising. -/
def validationFailedMsg : String :=
  "(pynavio model validation): Validation failed. Please fix" ++
    " the identified issues before uploading the model."

/-- Success message printed by ModelValidator.__call__. -/
def validationSucceededMsg : String :=
  "(pynavio model validation): Validation succeeded."

/-- ModelValidator.__call__ (`_mlflow.py` lines 440-449): runs `_run`;
on a caught exception prints the failure summary (with the optional
appended text) once and re-raises; on success prints the success
message. -/
def validatorCall (stages : List StageResult)
    (appendFailed appendSucceeded : String) : StageResult :=
  match runStages stages with
  | (.ok (), ms) => (.ok (), ms ++ [validationSucceededMsg ++ appendSucceeded])
  | (.error e, ms) =>
      if isCaughtByValidator e then
        (.error e, ms ++ [validationFailedMsg ++ appendFailed])
      else (.error e, ms)

/-- C4: a schema-validation or assertion failure in any stage aborts all
remaining stages (the overall outcome ignores everything after the
failing stage), the failure message is emitted exactly once (appended
once to the prints of the stages that ran), and the triggering error is
re-raised; on success the success message is emitted and no error is
raised. -/
theorem c4_validator_fail_fast (stages : List StageResult)
    (appendFailed appendSucceeded : String) :
    (∀ pre s post e, stages = pre ++ s :: post → s.1 = .error e →
      runStages stages = runStages (pre ++ [s])) ∧
    (∀ e ms, runStages stages = (.error e, ms) →
      isCaughtByValidator e = true →
      validatorCall stages appendFailed appendSucceeded =
        (.error e, ms ++ [validationFailedMsg ++ appendFailed])) ∧
    (∀ ms, runStages stages = (.ok (), ms) →
      validatorCall stages appendFailed appendSucceeded =
        (.ok (), ms ++ [validationSucceededMsg ++ appendSucceeded])) := by
  refine ⟨?_, ?_, ?_⟩
  · intro pre s post e hstages herr
    subst hstages
    induction pre with
    | nil =>
        obtain ⟨r, ms⟩ := s
        simp only at herr
        subst herr
        simp [runStages]
    | cons hd tl ih =>
        obtain ⟨rhd, mshd⟩ := hd
        cases rhd with
        | ok u =>
            cases u
            simp only [List.cons_append, runStages]
            rw [show tl.append (s :: post) = tl ++ s :: post from rfl,
              show tl.append [s] = tl ++ [s] from rfl, ih]
        | error e' => simp [runStages]
  · intro e ms hrun hcaught
    simp [validatorCall, hrun, hcaught]
  · intro ms hrun
    simp [validatorCall, hrun]

/-- C4 witness: with a failing first stage and a second stage, the
outcome equals that of the first stage alone, the failure message is
appended once, and the error is re-raised. -/
theorem c4_validator_fail_fast_witness :
    runStages [((.error .assertionError, ["warn"])), ((.ok (), ["later"]))] =
      runStages [((.error .assertionError, ["warn"]))] ∧
    validatorCall [((.error .assertionError, ["warn"])), ((.ok (), ["later"]))]
        "" "" =
      (.error .assertionError, ["warn"] ++ [validationFailedMsg ++ ""]) ∧
    validatorCall [((.ok (), ["warn"]))] "" "" =
      (.ok (), ["warn"] ++ [validationSucceededMsg ++ ""]) :=
  ⟨(c4_validator_fail_fast
      [((.error .assertionError, ["warn"])), ((.ok (), ["later"]))] "" "").1
      [] (.error .assertionError, ["warn"]) [(.ok (), ["later"])]
      .assertionError rfl rfl,
   (c4_validator_fail_fast
      [((.error .assertionError, ["warn"])), ((.ok (), ["later"]))] "" "").2.1
      .assertionError ["warn"] (by rfl) (by rfl),
   (c4_validator_fail_fast [((.ok (), ["warn"]))] "" "").2.2 ["warn"] (by rfl)⟩

/-- Helper of `_get_field` (`_mlflow.py` lines 69-79): walk the
remaining keys, returning None as soon as the current value is not a
dict. -/
def getFieldGo (v : Option JVal) : List String → Option JVal
  | [] => v
  | k :: ks =>
      match v with
      | some (.jobj fs) => getFieldGo (alookup fs k) ks
      | _ => none

/-- `_get_field` (`_mlflow.py` lines 69-79), with the dotted path
already split into its keys (the source splits the literal path string
on dots). -/
def _get_field (yml : List (String × JVal)) : List String → Option JVal
  | [] => none
  | k :: ks => getFieldGo (alookup yml k) ks

/-- Key list of the dotted path
`flavors.python_function.artifacts.example_request.path`. -/
def exampleRequestPathKeys : List String :=
  ["flavors", "python_function", "artifacts", "example_request", "path"]

/-- Key list of the dotted path
`flavors.python_function.artifacts.dataset.path`. -/
def datasetPathKeys : List String :=
  ["flavors", "python_function", "artifacts", "dataset", "path"]

/-- Python `x or default` on an optional string: None and the empty
string are falsy. -/
def orDefault (s : Option String) : String :=
  match s with
  | none => "default"
  | some s => if s = "" then "default" else s

/-- `cfg[metadata].update(k=v)`: update a key inside the nested
metadata dict (which `_add_metadata` has installed as a dict just
before). -/
def metaUpdate (cfg : List (String × JVal)) (k : String) (v : JVal) :
    List (String × JVal) :=
  match alookup cfg "metadata" with
  | some (.jobj m) => dictSet cfg "metadata" (.jobj (dictSet m k v))
  | _ => cfg

/-- The in-memory config transform performed by `_add_metadata`
(`_mlflow.py` lines 147-171): install the metadata block with the
request-schema path read from the flavors section, optionally attach the
dataset spec with its path rewritten from the flavors section, then
record the explanation mode, the OOD mode and (when positive) the GPU
count. -/
def metadataCfg (cfg : List (String × JVal))
    (dataset : Option (List (String × JVal))) (expl ood : String)
    (g : Int) : List (String × JVal) :=
  let cfg1 := dictSet cfg "metadata"
    (.jobj [("request_schema",
      .jobj [("path", (_get_field cfg exampleRequestPathKeys).getD .jnull)])])
  let cfg2 :=
    match dataset with
    | none => cfg1
    | some d =>
        metaUpdate cfg1 "dataset"
          (.jobj (dictSet d "path"
            ((_get_field cfg1 datasetPathKeys).getD .jnull)))
  let cfg3 := metaUpdate cfg2 "explanations" (.jstr expl)
  let cfg4 := metaUpdate cfg3 "oodDetection" (.jstr ood)
  if 0 < g then metaUpdate cfg4 "gpus" (.jnum g) else cfg4

/-- Path of the descriptor file patched by `_add_metadata`. -/
def mlmodelPath (model_path : String) : String := model_path ++ "/MLmodel"

/-- `_add_metadata` (`_mlflow.py` lines 139-174).  Reads the MLmodel
descriptor, validates the explanation mode, the OOD mode and the GPU
count with asserts, and only then writes the patched config back; every
failure therefore leaves the filesystem unchanged.  The in-memory config
updates that the source interleaves with the asserts are factored into
`metadataCfg`: they touch only the local config value, which a failed
assert discards, so the observable outcome is identical. -/
def _add_metadata (fs : FS) (model_path : String)
    (dataset : Option (List (String × JVal)))
    (explanations oodd : Option String) (num_gpus : Option Int) :
    Except PyErr Unit × FS :=
  match alookup fs (mlmodelPath model_path) with
  | none => (.error .fileError, fs)
  | some (.jobj cfg) =>
      let expl := orDefault explanations
      if !(["disabled", "default", "plotly"].contains expl) then
        (.error .assertionError, fs)
      else
        let ood := orDefault oodd
        if !(["disabled", "default"].contains ood) then
          (.error .assertionError, fs)
        else
          match num_gpus with
          | none => (.error .typeError, fs)
          | some g =>
              if g < 0 then (.error .assertionError, fs)
              else
                (.ok (), dictSet fs (mlmodelPath model_path)
                  (.jobj (metadataCfg cfg dataset expl ood g)))
  | some _ => (.error .attributeError, fs)

/-- dictSet leaves other keys alone. -/
theorem alookup_dictSet_ne {β : Type} (l : List (String × β)) {k key : String}
    (v : β) (h : k ≠ key) : alookup (dictSet l k v) key = alookup l key := by
  induction l with
  | nil => simp [dictSet, alookup, h]
  | cons hd tl ih =>
      obtain ⟨k', w⟩ := hd
      by_cases hk : k' = k
      · subst hk
        simp [dictSet, alookup, h, ih]
      · simp only [dictSet, if_neg hk]
        by_cases hk2 : k' = key
        · simp [alookup, hk2]
        · simp [alookup, hk2, ih]

/-- Overwriting the same key twice keeps only the second write. -/
theorem dictSet_dictSet_same {β : Type} (l : List (String × β)) (k : String)
    (v w : β) : dictSet (dictSet l k v) k w = dictSet l k w := by
  induction l with
  | nil => simp [dictSet]
  | cons hd tl ih =>
      obtain ⟨k', u⟩ := hd
      by_cases hk : k' = k
      · simp [dictSet, hk]
      · simp [dictSet, hk, ih]

/-- A field whose path starts outside the updated key is unchanged. -/
theorem get_field_dictSet_ne (cfg : List (String × JVal)) {k k₀ : String}
    (v : JVal) (ks : List String) (h : k ≠ k₀) :
    _get_field (dictSet cfg k v) (k₀ :: ks) = _get_field cfg (k₀ :: ks) := by
  simp [_get_field, alookup_dictSet_ne cfg v h]

/-- metaUpdate after installing the metadata block rewrites just that
block. -/
theorem metaUpdate_dictSet (cfg m : List (String × JVal)) (k : String)
    (v : JVal) :
    metaUpdate (dictSet cfg "metadata" (.jobj m)) k v =
      dictSet cfg "metadata" (.jobj (dictSet m k v)) := by
  simp [metaUpdate, alookup_dictSet_eq, dictSet_dictSet_same]

/-- The metadata object installed by `metadataCfg`. -/
def metaObj (cfg : List (String × JVal))
    (dataset : Option (List (String × JVal))) (expl ood : String)
    (g : Int) : List (String × JVal) :=
  let b0 := [("request_schema",
    .jobj [("path", (_get_field cfg exampleRequestPathKeys).getD JVal.jnull)])]
  let b1 :=
    match dataset with
    | none => b0
    | some d =>
        dictSet b0 "dataset"
          (.jobj (dictSet d "path"
            ((_get_field cfg datasetPathKeys).getD JVal.jnull)))
  let b2 := dictSet b1 "explanations" (.jstr expl)
  let b3 := dictSet b2 "oodDetection" (.jstr ood)
  if 0 < g then dictSet b3 "gpus" (.jnum g) else b3

/-- metadataCfg only replaces the top-level metadata entry. -/
theorem metadataCfg_eq_dictSet (cfg : List (String × JVal))
    (dataset : Option (List (String × JVal))) (expl ood : String) (g : Int) :
    metadataCfg cfg dataset expl ood g =
      dictSet cfg "metadata" (.jobj (metaObj cfg dataset expl ood g)) := by
  have hne : "metadata" ≠ "flavors" := by decide
  cases dataset with
  | none =>
      simp only [metadataCfg, metaObj, metaUpdate_dictSet]
      by_cases hg : 0 < g
      · simp [hg, metaUpdate_dictSet]
      · simp [hg]
  | some d =>
      simp only [metadataCfg, metaObj, datasetPathKeys,
        get_field_dictSet_ne cfg _ _ hne, metaUpdate_dictSet]
      by_cases hg : 0 < g
      · simp [hg, metaUpdate_dictSet]
      · simp [hg]

/-- The metadata object does not depend on a previously installed
metadata entry. -/
theorem metaObj_dictSet_metadata (cfg : List (String × JVal)) (v : JVal)
    (dataset : Option (List (String × JVal))) (expl ood : String) (g : Int) :
    metaObj (dictSet cfg "metadata" v) dataset expl ood g =
      metaObj cfg dataset expl ood g := by
  have hne : "metadata" ≠ "flavors" := by decide
  cases dataset with
  | none =>
      simp only [metaObj, exampleRequestPathKeys,
        get_field_dictSet_ne cfg v _ hne]
  | some d =>
      simp only [metaObj, exampleRequestPathKeys, datasetPathKeys,
        get_field_dictSet_ne cfg v _ hne]

/-- C5: given a readable descriptor, an explanation mode outside
disabled/default/plotly, an OOD mode outside disabled/default, or a
negative GPU count makes `_add_metadata` raise an AssertionError, and in
every such case the returned filesystem is exactly the input one — the
error is raised before any write, so the descriptor is unchanged. -/
theorem c5_add_metadata_validation (fs : FS) (model_path : String)
    (dataset : Option (List (String × JVal)))
    (explanations oodd : Option String) (num_gpus : Option Int)
    (cfg : List (String × JVal))
    (hread : alookup fs (mlmodelPath model_path) = some (.jobj cfg)) :
    ((["disabled", "default", "plotly"].contains (orDefault explanations))
        = false →
      _add_metadata fs model_path dataset explanations oodd num_gpus =
        (.error .assertionError, fs)) ∧
    ((["disabled", "default", "plotly"].contains (orDefault explanations))
        = true →
     (["disabled", "default"].contains (orDefault oodd)) = false →
      _add_metadata fs model_path dataset explanations oodd num_gpus =
        (.error .assertionError, fs)) ∧
    (∀ g, num_gpus = some g → g < 0 →
     (["disabled", "default", "plotly"].contains (orDefault explanations))
        = true →
     (["disabled", "default"].contains (orDefault oodd)) = true →
      _add_metadata fs model_path dataset explanations oodd num_gpus =
        (.error .assertionError, fs)) := by
  refine ⟨?_, ?_, ?_⟩
  · intro hexp
    simp only [_add_metadata, hread, hexp, Bool.not_false, if_true]
  · intro hexp hood
    simp only [_add_metadata, hread, hexp, Bool.not_true, Bool.false_eq_true,
      if_false, hood, Bool.not_false, if_true]
  · intro g hgsome hneg hexp hood
    subst hgsome
    simp only [_add_metadata, hread, hexp, hood, Bool.not_true,
      Bool.false_eq_true, if_false, if_pos hneg]

/-- C5 witness: an unrecognized explanation mode fails and the
filesystem is returned unchanged. -/
theorem c5_add_metadata_validation_witness :
    _add_metadata [("m/MLmodel", .jobj [("flavors", .jnull)])] "m" none
        (some "bogus") none (some 0) =
      (.error .assertionError, [("m/MLmodel", .jobj [("flavors", .jnull)])]) :=
  (c5_add_metadata_validation [("m/MLmodel", .jobj [("flavors", .jnull)])]
      "m" none (some "bogus") none (some 0) [("flavors", .jnull)]
      (by rfl)).1 (by rfl)

/-- C6: applying `_add_metadata` with explanation mode plotly to a
readable descriptor (with a valid OOD mode and a nonnegative GPU count)
succeeds, re-reading the descriptor yields metadata.explanations equal
to plotly, and applying the patch a second time with identical inputs
returns the very same filesystem — the patch is idempotent. -/
theorem c6_add_metadata_roundtrip_idempotent (fs : FS) (model_path : String)
    (dataset : Option (List (String × JVal))) (oodd : Option String)
    (g : Int) (cfg : List (String × JVal))
    (hread : alookup fs (mlmodelPath model_path) = some (.jobj cfg))
    (hoodd : (["disabled", "default"].contains (orDefault oodd)) = true)
    (hg : ¬g < 0) :
    ∃ fs₁ cfg₁,
      _add_metadata fs model_path dataset (some "plotly") oodd (some g) =
        (.ok (), fs₁) ∧
      alookup fs₁ (mlmodelPath model_path) = some (.jobj cfg₁) ∧
      _get_field cfg₁ ["metadata", "explanations"] = some (.jstr "plotly") ∧
      _add_metadata fs₁ model_path dataset (some "plotly") oodd (some g) =
        (.ok (), fs₁) := by
  have hexp : (["disabled", "default", "plotly"].contains
      (orDefault (some "plotly"))) = true := by rfl
  set M := metaObj cfg dataset (orDefault (some "plotly")) (orDefault oodd) g
    with hM
  set X := dictSet cfg "metadata" (.jobj M) with hX
  have hrun1 :
      _add_metadata fs model_path dataset (some "plotly") oodd (some g) =
        (.ok (), dictSet fs (mlmodelPath model_path) (.jobj X)) := by
    simp only [_add_metadata, hread, hexp, hoodd, Bool.not_true,
      Bool.false_eq_true, if_false, if_neg hg, metadataCfg_eq_dictSet, hX, hM]
  refine ⟨dictSet fs (mlmodelPath model_path) (.jobj X), X, hrun1,
    alookup_dictSet_eq fs (mlmodelPath model_path) (.jobj X), ?_, ?_⟩
  · have hlook : alookup X "metadata" = some (.jobj M) :=
      alookup_dictSet_eq cfg "metadata" (.jobj M)
    simp only [_get_field, getFieldGo, hlook]
    have hgpus : ("gpus" : String) ≠ "explanations" := by decide
    have hood2 : ("oodDetection" : String) ≠ "explanations" := by decide
    simp only [hM, metaObj]
    by_cases hg0 : 0 < g
    · simp only [hg0, if_true, alookup_dictSet_ne _ _ hgpus,
        alookup_dictSet_ne _ _ hood2, alookup_dictSet_eq]
      rfl
    · simp only [hg0, if_false, alookup_dictSet_ne _ _ hood2,
        alookup_dictSet_eq]
      rfl
  · have hread1 : alookup (dictSet fs (mlmodelPath model_path) (.jobj X))
        (mlmodelPath model_path) = some (.jobj X) :=
      alookup_dictSet_eq fs (mlmodelPath model_path) (.jobj X)
    have hcfg2 : metadataCfg X dataset (orDefault (some "plotly"))
        (orDefault oodd) g = X := by
      rw [metadataCfg_eq_dictSet, hX, metaObj_dictSet_metadata, ← hM,
        dictSet_dictSet_same]
    simp only [_add_metadata, hread1, hexp, hoodd, Bool.not_true,
      Bool.false_eq_true, if_false, if_neg hg, hcfg2, dictSet_dictSet_same]

/-- C6 witness: a concrete descriptor patched with plotly reads back
plotly and the second application returns the same filesystem. -/
theorem c6_add_metadata_roundtrip_idempotent_witness :
    ∃ fs₁ cfg₁,
      _add_metadata [("m/MLmodel", .jobj [("flavors", .jnull)])] "m" none
          (some "plotly") none (some 0) = (.ok (), fs₁) ∧
      alookup fs₁ (mlmodelPath "m") = some (.jobj cfg₁) ∧
      _get_field cfg₁ ["metadata", "explanations"] = some (.jstr "plotly") ∧
      _add_metadata fs₁ "m" none (some "plotly") none (some 0) =
        (.ok (), fs₁) :=
  c6_add_metadata_roundtrip_idempotent
    [("m/MLmodel", .jobj [("flavors", .jnull)])] "m" none none 0
    [("flavors", .jnull)] (by rfl) (by rfl) (by decide)

/-- The predict function of a loaded model, as seen by the decorator
check: `getattr(func, ..., False)` yields its
wrapped-by-prediction-call marker (False when absent). -/
structure PredictFn where
  wrapped_by_prediction_call : Bool

/-- A loaded pyfunc model as the decorator check observes it: following
the attribute chain `model._model_impl.python_model.predict` either
yields the predict function or raises an AttributeError (`none`). -/
structure PyModel where
  predict : Option PredictFn

/-- `_is_model_predict_wrapped_by_prediction_call` (`_mlflow.py` lines
287-293): reads the marker, raising AttributeError when the attribute
chain is missing. -/
def _is_model_predict_wrapped_by_prediction_call (m : PyModel) :
    Except PyErr Bool :=
  match m.predict with
  | none => .error .attributeError
  | some f => .ok f.wrapped_by_prediction_call

/-- Warning printed when the predict method is not wrapped by
prediction_call. -/
def decoratorWarning : String :=
  "Warning: (pynavio model validation) Please use" ++
    " pynavio.prediction_call to decorate the predict method of the model."

/-- `ModelValidator._check_if_prediction_call_is_used` (`_mlflow.py`
lines 356-371): `used` starts True (no warning when unsure), the marker
read is guarded by `except AttributeError: pass`, and an unwrapped
predict method only produces a warning message. -/
def _check_if_prediction_call_is_used (m : PyModel) :
    Except PyErr (List String) :=
  match _is_model_predict_wrapped_by_prediction_call m with
  | .ok b => if b then .ok [] else .ok [decoratorWarning]
  | .error .attributeError => .ok []
  | .error e => .error e

/-- The decorator check as a validator stage. -/
def decoratorCheckStage (m : PyModel) : StageResult :=
  match _check_if_prediction_call_is_used m with
  | .ok msgs => (.ok (), msgs)
  | .error e => (.error e, [])

/-- C7: the decorator-usage check never raises; when the predict method
is not wrapped it emits exactly the warning message; and as a validator
stage it never changes the validation outcome — the remaining stages
decide it. -/
theorem c7_decorator_check_never_raises (m : PyModel) :
    (∃ msgs, _check_if_prediction_call_is_used m = .ok msgs) ∧
    (∀ f, m.predict = some f → f.wrapped_by_prediction_call = false →
      _check_if_prediction_call_is_used m = .ok [decoratorWarning]) ∧
    (∀ rest, (runStages (decoratorCheckStage m :: rest)).1 =
      (runStages rest).1) := by
  refine ⟨?_, ?_, ?_⟩
  · cases hm : m.predict with
    | none =>
        exact ⟨[], by simp [_check_if_prediction_call_is_used,
          _is_model_predict_wrapped_by_prediction_call, hm]⟩
    | some f =>
        cases hw : f.wrapped_by_prediction_call
        · exact ⟨[decoratorWarning], by
            simp [_check_if_prediction_call_is_used,
              _is_model_predict_wrapped_by_prediction_call, hm, hw]⟩
        · exact ⟨[], by
            simp [_check_if_prediction_call_is_used,
              _is_model_predict_wrapped_by_prediction_call, hm, hw]⟩
  · intro f hm hw
    simp [_check_if_prediction_call_is_used,
      _is_model_predict_wrapped_by_prediction_call, hm, hw]
  · intro rest
    cases hm : m.predict with
    | none =>
        simp [decoratorCheckStage, _check_if_prediction_call_is_used,
          _is_model_predict_wrapped_by_prediction_call, hm, runStages]
    | some f =>
        cases hw : f.wrapped_by_prediction_call
        · simp [decoratorCheckStage, _check_if_prediction_call_is_used,
            _is_model_predict_wrapped_by_prediction_call, hm, hw, runStages]
        · simp [decoratorCheckStage, _check_if_prediction_call_is_used,
            _is_model_predict_wrapped_by_prediction_call, hm, hw, runStages]

/-- C7 witness: an unwrapped predict method yields only the warning. -/
theorem c7_decorator_check_never_raises_witness :
    _check_if_prediction_call_is_used ⟨some ⟨false⟩⟩ =
      .ok [decoratorWarning] :=
  (c7_decorator_check_never_raises ⟨some ⟨false⟩⟩).2.1 ⟨false⟩ rfl rfl

/-- MODEL_SIZE_LIMIT_IN_BYTES (`_mlflow.py` line 23). -/
def MODEL_SIZE_LIMIT_IN_BYTES : Nat := 1000000000

/-- Warning printed by check_zip_size when the archive is oversized. -/
def zipSizeWarning : String :=
  "Warning: (pynavio model validation) the default model.zip size" ++
    " limit is exceeded. Please reduce the size or contact craftworks" ++
    " support team to increase the default size"

/-- ModelValidator.check_zip_size (`_mlflow.py` lines 373-380): stat the
archive (OSError when it does not exist — the claim scopes this out by
assuming the file exists) and print a warning when its size exceeds the
byte limit. -/
def check_zip_size (st_size : Option Nat) (model_size_in_bytes : Nat) :
    Except PyErr (List String) :=
  match st_size with
  | none => .error .fileError
  | some sz =>
      if model_size_in_bytes < sz then .ok [zipSizeWarning] else .ok []

/-- C8: for an existing archive of any size the size check never raises,
it warns exactly when the size exceeds the byte limit, and the default
limit is 1000000000 bytes. -/
theorem c8_check_zip_size_soft (sz limit : Nat) :
    (∃ msgs, check_zip_size (some sz) limit = .ok msgs ∧
      (msgs ≠ [] ↔ limit < sz)) ∧
    MODEL_SIZE_LIMIT_IN_BYTES = 1000000000 := by
  refine ⟨?_, rfl⟩
  by_cases h : limit < sz
  · exact ⟨[zipSizeWarning], by simp [check_zip_size, h]⟩
  · exact ⟨[], by simp [check_zip_size, h]⟩

/-- A Python exception as caught by prediction_call: its class name, its
string representation, and the formatted traceback. -/
structure PyExc where
  className : String
  message : String
  stackTrace : String

/-- prediction_call (`utils/common.py` lines 228-243): wraps a predict
function; a normal result is returned unchanged, and any exception is
converted into the structured error payload instead of propagating. -/
def prediction_call {α : Type} (predict_fn : α → Except PyExc JVal) :
    α → JVal :=
  fun args =>
    match predict_fn args with
    | .ok v => v
    | .error exc =>
        .jobj [("error_code", .jstr exc.className),
               ("message", .jstr exc.message),
               ("stack_trace", .jstr exc.stackTrace)]

/-- Keys of a JSON object. -/
def jKeys : JVal → List String
  | .jobj fs => fs.map Prod.fst
  | _ => []

/-- C9: a function wrapped by prediction_call returns normal results
unchanged, and converts any raised exception into a dictionary whose key
set is exactly the error keys, with error_code the exception class name
and message its string representation; the exception never
propagates (the wrapper is total). -/
theorem c9_prediction_call_wraps {α : Type} (f : α → Except PyExc JVal)
    (a : α) :
    (∀ v, f a = .ok v → prediction_call f a = v) ∧
    (∀ e, f a = .error e →
      prediction_call f a =
        .jobj [("error_code", .jstr e.className),
               ("message", .jstr e.message),
               ("stack_trace", .jstr e.stackTrace)] ∧
      keySetEq (jKeys (prediction_call f a)) errorKeysList = true) := by
  constructor
  · intro v hv
    simp [prediction_call, hv]
  · intro e he
    refine ⟨by simp [prediction_call, he], ?_⟩
    simp [prediction_call, he, jKeys, keySetEq, errorKeysList]

/-- C9 witness: a raising predict function yields exactly the error
payload, a normal one is passed through. -/
theorem c9_prediction_call_wraps_witness :
    prediction_call (fun _ : Nat => .error ⟨"ValueError", "boom", "tb"⟩) 0 =
      .jobj [("error_code", .jstr "ValueError"),
             ("message", .jstr "boom"),
             ("stack_trace", .jstr "tb")] ∧
    prediction_call (fun _ : Nat => .ok (.jnum 1)) 0 = .jnum 1 :=
  ⟨((c9_prediction_call_wraps
        (fun _ : Nat => .error ⟨"ValueError", "boom", "tb"⟩) 0).2
      ⟨"ValueError", "boom", "tb"⟩ rfl).1,
   (c9_prediction_call_wraps (fun _ : Nat => .ok (.jnum 1)) 0).1
      (.jnum 1) rfl⟩

/-- A sample value of a row column: the `type_names` table of
make_example_request covers exactly int, float and str (other Python
types raise a KeyError there and are out of scope). -/
inductive RowVal where
  | vint : Int → RowVal
  | vfloat : ℚ → RowVal
  | vstr : String → RowVal

/-- `type_names[type(row[name])]` (`utils/common.py` line 196). -/
def typeName : RowVal → String
  | .vint _ => "float"
  | .vfloat _ => "float"
  | .vstr _ => "string"

/-- The sample value as serialized into the example request. -/
def rowValToJVal : RowVal → JVal
  | .vint i => .jnum i
  | .vfloat q => .jnum q
  | .vstr s => .jstr s

/-- `_column_spec` (`utils/common.py` lines 198-204). -/
def columnSpec (name : String) (v : RowVal) (ty : Option String) : JVal :=
  .jobj [("name", .jstr name), ("sampleData", rowValToJVal v),
         ("type", .jstr (ty.getD (typeName v))), ("nullable", .jbool false)]

/-- make_example_request (`utils/common.py` lines 188-225).  Asserts the
target differs from the datetime column, builds featureColumns from the
non-target non-datetime row entries and targetColumns from the target
entry (KeyError when the target is not a row key); when no datetime
column is given it returns immediately, so min_rows is never inspected;
otherwise it attaches dateTimeColumn and, when min_rows is given,
asserts min_rows is positive and attaches minimumNumberRows. -/
def make_example_request (row : List (String × RowVal)) (target : String)
    (datetime_column : Option String) (min_rows : Option Int) :
    Except PyErr JVal :=
  if datetime_column = some target then .error .assertionError
  else
    match alookup row target with
    | none => .error .keyError
    | some tv =>
        let features := (row.filter fun kv =>
          !(kv.1 == target) && !(some kv.1 == datetime_column)).map
            fun kv => columnSpec kv.1 kv.2 none
        let base := [("featureColumns", JVal.jarr features),
                     ("targetColumns", JVal.jarr [columnSpec target tv none])]
        match datetime_column with
        | none => .ok (.jobj base)
        | some dt =>
            match alookup row dt with
            | none => .error .keyError
            | some dv =>
                let base1 :=
                  dictSet base "dateTimeColumn"
                    (columnSpec dt dv (some "timestamp"))
                match min_rows with
                | none => .ok (.jobj base1)
                | some mr =>
                    if mr ≤ 0 then .error .assertionError
                    else .ok (.jobj
                      (dictSet base1 "minimumNumberRows" (.jnum mr)))

/-- Key-presence test on a JSON object. -/
def jHasKey (v : JVal) (k : String) : Bool :=
  match v with
  | .jobj fs => (alookup fs k).isSome
  | _ => false

/-- C10: with datetime_column = None, make_example_request silently
ignores min_rows — it succeeds (given the target is a row key) with a
result that has no minimumNumberRows key, and a non-positive min_rows is
not rejected; conversely, whenever a result carries minimumNumberRows, a
datetime column was supplied and min_rows was positive. -/
theorem c10_make_example_request_min_rows (row : List (String × RowVal))
    (target : String) (min_rows : Option Int) :
    (∀ tv, alookup row target = some tv →
      ∃ ex, make_example_request row target none min_rows = .ok ex ∧
        jHasKey ex "minimumNumberRows" = false) ∧
    (∀ dt ex, make_example_request row target dt min_rows = .ok ex →
      jHasKey ex "minimumNumberRows" = true →
      dt ≠ none ∧ ∃ mr, min_rows = some mr ∧ 0 < mr) := by
  constructor
  · intro tv htv
    have h : make_example_request row target none min_rows = .ok (.jobj
        [("featureColumns", JVal.jarr ((row.filter fun kv =>
            !(kv.1 == target) && !(some kv.1 == (none : Option String))).map
              fun kv => columnSpec kv.1 kv.2 none)),
         ("targetColumns", JVal.jarr [columnSpec target tv none])]) := by
      simp only [make_example_request, htv]
      rw [if_neg (show ¬((none : Option String) = some target) by simp)]
    exact ⟨_, h, by simp [jHasKey, alookup]⟩
  · intro dt ex hok hkey
    cases dt with
    | none =>
        refine absurd hkey ?_
        by_cases htv : (alookup row target).isSome
        · obtain ⟨tv, htv'⟩ := Option.isSome_iff_exists.mp htv
          simp only [make_example_request, htv'] at hok
          rw [if_neg (show ¬((none : Option String) = some target)
            by simp)] at hok
          cases hok
          simp [jHasKey, alookup]
        · rw [Option.not_isSome_iff_eq_none] at htv
          simp [make_example_request, htv] at hok
    | some dtc =>
        refine ⟨by simp, ?_⟩
        by_cases heq : some dtc = some target
        · simp [make_example_request, heq] at hok
        · simp only [make_example_request, if_neg heq] at hok
          cases htv : alookup row target with
          | none => simp [htv] at hok
          | some tv =>
              simp only [htv] at hok
              cases hdv : alookup row dtc with
              | none => simp [hdv] at hok
              | some dv =>
                  simp only [hdv] at hok
                  cases min_rows with
                  | none =>
                      simp only [] at hok
                      cases hok
                      refine absurd hkey ?_
                      have h1 : ("dateTimeColumn" : String) ≠
                          "minimumNumberRows" := by decide
                      simp [jHasKey, alookup_dictSet_ne _ _ h1, alookup]
                  | some mr =>
                      by_cases hmr : mr ≤ 0
                      · simp [hmr] at hok
                      · exact ⟨mr, rfl, by omega⟩

/-- C10 witness: a negative min_rows with no datetime column is accepted
and the result has no minimumNumberRows key. -/
theorem c10_make_example_request_min_rows_witness :
    ∃ ex, make_example_request [("a", .vfloat 1), ("t", .vstr "x")] "t"
        none (some (-5)) = .ok ex ∧
      jHasKey ex "minimumNumberRows" = false :=
  (c10_make_example_request_min_rows [("a", .vfloat 1), ("t", .vstr "x")]
      "t" (some (-5))).1 (.vstr "x") (by rfl)
